import Mathlib

/-!
Shallow embedding of `gtkwindowbuttonsquartz.c` (GtkWindowButtonsQuartz),
the macOS native window-buttons widget.

The widget instance struct holds three construct-only booleans
(`close`, `minimize`, `maximize`).  The lifecycle callbacks
(`realize`, `unrealize`, `measure`, `size_allocate`) interact with the
root surface only through four GDK calls, which we record as events in a
trace:

  * `gdk_macos_surface_show_window_controls (surface, b)`  (returns gboolean)
  * `gdk_macos_surface_enable_window_controls (surface, c, m, x)`
  * `gdk_macos_surface_set_window_controls_height (surface, h)`

Chaining up to the parent class (`GTK_WIDGET_CLASS (...)->realize` etc.)
is recorded as `base*` events so that the ordering between the custom
code and the base-class delegation is visible in the trace.  The base
widget's `size_allocate` stores the allocation, which is what
`gtk_widget_get_height` reads afterwards; that is the only piece of base
widget state the file's code observes, so the embedded widget state is
the three flags plus the stored allocation.
-/

/-- The root surface as seen by this widget: whether the
`GDK_IS_MACOS_SURFACE` check succeeds, and what
`gdk_macos_surface_show_window_controls` returns when called. -/
structure GdkSurface where
  is_macos_surface : Bool
  show_window_controls_result : Bool
deriving DecidableEq, Repr

/-- One observable event of a lifecycle callback: a call to the GDK
macOS-surface API, or chaining up to the parent widget class. -/
inductive Event where
  | baseRealize : Event
  | baseUnrealize : Event
  | baseSizeAllocate (width height baseline : Int) : Event
  | showWindowControls (flag : Bool) : Event
  | enableWindowControls (close minimize maximize : Bool) : Event
  | setWindowControlsHeight (height : Int) : Event
deriving DecidableEq, Repr

/-- Instance state of `GtkWindowButtonsQuartz`: the three boolean flags
from the struct, plus the allocation stored by the base widget's
`size_allocate` (read back by `gtk_widget_get_height`). -/
structure GtkWindowButtonsQuartz where
  close : Bool
  minimize : Bool
  maximize : Bool
  allocated_width : Int
  allocated_height : Int
deriving DecidableEq, Repr

/-- Property ids from the `enum` at the top of the file. -/
def PROP_0 : Nat := 0
def PROP_CLOSE : Nat := 1
def PROP_MINIMIZE : Nat := 2
def PROP_MAXIMIZE : Nat := 3

/-- Defaults of the three `g_param_spec_boolean` specs installed in
`gtk_window_buttons_quartz_class_init` (all `TRUE`). -/
def prop_close_default : Bool := true
def prop_minimize_default : Bool := true
def prop_maximize_default : Bool := true

/-- `gtk_window_buttons_quartz_get_property`: returns the flag selected
by `prop_id`; an unknown id only warns (modelled as `none`). -/
def gtk_window_buttons_quartz_get_property
    (self : GtkWindowButtonsQuartz) (prop_id : Nat) : Option Bool :=
  if prop_id = PROP_CLOSE then some self.close
  else if prop_id = PROP_MINIMIZE then some self.minimize
  else if prop_id = PROP_MAXIMIZE then some self.maximize
  else none

/-- `gtk_window_buttons_quartz_set_property`: stores the boolean value
into the flag selected by `prop_id`; an unknown id only warns (modelled
as leaving the instance unchanged). -/
def gtk_window_buttons_quartz_set_property
    (self : GtkWindowButtonsQuartz) (prop_id : Nat) (value : Bool) :
    GtkWindowButtonsQuartz :=
  if prop_id = PROP_CLOSE then { self with close := value }
  else if prop_id = PROP_MINIMIZE then { self with minimize := value }
  else if prop_id = PROP_MAXIMIZE then { self with maximize := value }
  else self

/-- `gtk_window_buttons_quartz_init`: the instance struct comes
zero-initialised from the GObject allocator and the function body is
empty, so all flags start `false` and no allocation is stored yet. -/
def gtk_window_buttons_quartz_instance : GtkWindowButtonsQuartz :=
  { close := false, minimize := false, maximize := false
    allocated_width := 0, allocated_height := 0 }

/-- `g_object_new` on this type: GObject construction applies
`set_property` once for each `G_PARAM_CONSTRUCT_ONLY` property, using
the caller-supplied value when given and the param-spec default
otherwise. -/
def gtk_window_buttons_quartz_new
    (close minimize maximize : Option Bool) : GtkWindowButtonsQuartz :=
  let st := gtk_window_buttons_quartz_instance
  let st := gtk_window_buttons_quartz_set_property st PROP_CLOSE
      (close.getD prop_close_default)
  let st := gtk_window_buttons_quartz_set_property st PROP_MINIMIZE
      (minimize.getD prop_minimize_default)
  let st := gtk_window_buttons_quartz_set_property st PROP_MAXIMIZE
      (maximize.getD prop_maximize_default)
  st

/-- `gtk_window_buttons_quartz_realize`: chain up first; then, if the
root surface is a macOS surface *and* `show_window_controls (surface,
TRUE)` returns true (C short-circuit `&&`: the show call happens only
when the type check passed), call `enable_window_controls` with the
instance flags. -/
def gtk_window_buttons_quartz_realize
    (self : GtkWindowButtonsQuartz) (surface : GdkSurface) : List Event :=
  Event.baseRealize ::
    (if surface.is_macos_surface then
      Event.showWindowControls true ::
        (if surface.show_window_controls_result then
          [Event.enableWindowControls self.close self.minimize self.maximize]
        else [])
    else [])

/-- `gtk_window_buttons_quartz_unrealize`: if the root surface is a macOS
surface, call `show_window_controls (surface, FALSE)` (its result is
discarded); then chain up. -/
def gtk_window_buttons_quartz_unrealize (surface : GdkSurface) : List Event :=
  (if surface.is_macos_surface then [Event.showWindowControls false] else []) ++
    [Event.baseUnrealize]

/-- `update_native_window_buttons_height`: if the root surface is a macOS
surface and `gtk_widget_get_height` (the stored allocated height) is
positive, call `set_window_controls_height` with it. -/
def update_native_window_buttons_height
    (self : GtkWindowButtonsQuartz) (surface : GdkSurface) : List Event :=
  if surface.is_macos_surface then
    (if self.allocated_height > 0 then
      [Event.setWindowControlsHeight self.allocated_height]
    else [])
  else []

/-- `gtk_window_buttons_quartz_size_allocate`: chain up first (the base
widget stores the new allocation), then run
`update_native_window_buttons_height` on the updated widget. -/
def gtk_window_buttons_quartz_size_allocate
    (self : GtkWindowButtonsQuartz) (surface : GdkSurface)
    (width height baseline : Int) :
    GtkWindowButtonsQuartz × List Event :=
  let self' := { self with allocated_width := width, allocated_height := height }
  (self', Event.baseSizeAllocate width height baseline ::
      update_native_window_buttons_height self' surface)

/-- `GtkOrientation` has exactly these two values. -/
inductive GtkOrientation where
  | horizontal : GtkOrientation
  | vertical : GtkOrientation
deriving DecidableEq, Repr

/-- `gtk_window_buttons_quartz_measure`: writes `*minimum = *natural =
28` for the vertical orientation and `60` for the horizontal one,
ignoring `for_size`; returned as the pair `(minimum, natural)`. -/
def gtk_window_buttons_quartz_measure
    (orientation : GtkOrientation) (for_size : Int) : Int × Int :=
  match orientation with
  | GtkOrientation.vertical => (28, 28)
  | GtkOrientation.horizontal => (60, 60)

/-- A lifecycle callback invocation, as dispatched through the vtable
set up in `gtk_window_buttons_quartz_class_init`. -/
inductive LifecycleOp where
  | realize (surface : GdkSurface) : LifecycleOp
  | unrealize (surface : GdkSurface) : LifecycleOp
  | measure (orientation : GtkOrientation) (for_size : Int) : LifecycleOp
  | sizeAllocate (surface : GdkSurface) (width height baseline : Int) : LifecycleOp
deriving DecidableEq, Repr

/-- One lifecycle callback: the updated instance and the emitted trace.
`measure` and `realize`/`unrealize` never write the instance struct;
only `size_allocate` does (through the base class storing the
allocation). -/
def stepOp (self : GtkWindowButtonsQuartz) (op : LifecycleOp) :
    GtkWindowButtonsQuartz × List Event :=
  match op with
  | LifecycleOp.realize surface => (self, gtk_window_buttons_quartz_realize self surface)
  | LifecycleOp.unrealize surface => (self, gtk_window_buttons_quartz_unrealize surface)
  | LifecycleOp.measure _ _ => (self, [])
  | LifecycleOp.sizeAllocate surface w h b =>
      gtk_window_buttons_quartz_size_allocate self surface w h b

/-- Run a sequence of lifecycle callbacks, concatenating the traces. -/
def runOps (self : GtkWindowButtonsQuartz) :
    List LifecycleOp → GtkWindowButtonsQuartz × List Event
  | [] => (self, [])
  | op :: rest =>
      let r := stepOp self op
      let r' := runOps r.1 rest
      (r'.1, r.2 ++ r'.2)

/-- Events that are calls into the GDK macOS-surface API (as opposed to
chaining up to the base widget class). -/
def isSurfaceCall : Event → Bool
  | Event.showWindowControls _ => true
  | Event.enableWindowControls _ _ _ => true
  | Event.setWindowControlsHeight _ => true
  | _ => false

/-- The sub-trace of calls issued to the surface. -/
def surfaceCalls (tr : List Event) : List Event := tr.filter isSurfaceCall

/-- Events that are `enable_window_controls` calls. -/
def isEnableCall : Event → Bool
  | Event.enableWindowControls _ _ _ => true
  | _ => false

/-- Events that are `set_window_controls_height` calls. -/
def isSetHeightCall : Event → Bool
  | Event.setWindowControlsHeight _ => true
  | _ => false

/-- Auxiliary: `stepOp` never changes the three flags. -/
theorem stepOp_preserves_flags (self : GtkWindowButtonsQuartz) (op : LifecycleOp) :
    (stepOp self op).1.close = self.close ∧
    (stepOp self op).1.minimize = self.minimize ∧
    (stepOp self op).1.maximize = self.maximize := by
  cases op <;>
    simp [stepOp, gtk_window_buttons_quartz_size_allocate]

/-- C1: on a macOS surface, realize calls `show_window_controls (surface,
TRUE)` exactly once; if that returns true it then calls
`enable_window_controls` exactly once, with the instance flags; if it
returns false, `enable_window_controls` is never called. -/
theorem realize_show_then_enable
    (self : GtkWindowButtonsQuartz) (surface : GdkSurface)
    (h : surface.is_macos_surface = true) :
    (gtk_window_buttons_quartz_realize self surface).count
        (Event.showWindowControls true) = 1 ∧
    (surface.show_window_controls_result = true →
      (gtk_window_buttons_quartz_realize self surface).filter isEnableCall =
        [Event.enableWindowControls self.close self.minimize self.maximize]) ∧
    (surface.show_window_controls_result = false →
      (gtk_window_buttons_quartz_realize self surface).filter isEnableCall = []) := by
  cases hr : surface.show_window_controls_result <;>
    simp [gtk_window_buttons_quartz_realize, h, hr, isEnableCall,
      List.count_cons, List.count_nil]

/-- C1 witness: a concrete granted macOS surface. -/
theorem realize_show_then_enable_witness :
    (gtk_window_buttons_quartz_realize
        (gtk_window_buttons_quartz_new (some true) (some false) (some true))
        { is_macos_surface := true, show_window_controls_result := true }).count
        (Event.showWindowControls true) = 1 ∧
    ((true : Bool) = true →
      (gtk_window_buttons_quartz_realize
          (gtk_window_buttons_quartz_new (some true) (some false) (some true))
          { is_macos_surface := true, show_window_controls_result := true }).filter
          isEnableCall =
        [Event.enableWindowControls true false true]) ∧
    ((true : Bool) = false →
      (gtk_window_buttons_quartz_realize
          (gtk_window_buttons_quartz_new (some true) (some false) (some true))
          { is_macos_surface := true, show_window_controls_result := true }).filter
          isEnableCall = []) := by
  have h := realize_show_then_enable
    (gtk_window_buttons_quartz_new (some true) (some false) (some true))
    { is_macos_surface := true, show_window_controls_result := true } (by decide)
  exact ⟨h.1, by decide, by decide⟩

/-- C2: size-allocate first chains up to the base class, and the
`set_window_controls_height` call happens exactly when the surface is a
macOS surface and the new height is positive, in which case it carries
exactly that height; a height of zero or less is never propagated. -/
theorem size_allocate_height_propagation
    (self : GtkWindowButtonsQuartz) (surface : GdkSurface)
    (width height baseline : Int) :
    ((gtk_window_buttons_quartz_size_allocate self surface width height baseline).2.head? =
      some (Event.baseSizeAllocate width height baseline)) ∧
    (surface.is_macos_surface = true → height > 0 →
      (gtk_window_buttons_quartz_size_allocate self surface width height baseline).2.filter
          isSetHeightCall = [Event.setWindowControlsHeight height]) ∧
    (height ≤ 0 →
      (gtk_window_buttons_quartz_size_allocate self surface width height baseline).2.filter
          isSetHeightCall = []) := by
  refine ⟨rfl, ?_, ?_⟩
  · intro hm hh
    simp [gtk_window_buttons_quartz_size_allocate,
      update_native_window_buttons_height, hm, hh, isSetHeightCall]
  · intro hh
    have hnot : ¬ (height > 0) := by omega
    cases hm : surface.is_macos_surface <;>
      simp [gtk_window_buttons_quartz_size_allocate,
        update_native_window_buttons_height, hm, hnot, isSetHeightCall]

/-- C2 witness: height 44 on a macOS surface propagates exactly once. -/
theorem size_allocate_height_propagation_witness :
    ((gtk_window_buttons_quartz_size_allocate
        (gtk_window_buttons_quartz_new none none none)
        { is_macos_surface := true, show_window_controls_result := true }
        60 44 (-1)).2.head? = some (Event.baseSizeAllocate 60 44 (-1))) ∧
    ((gtk_window_buttons_quartz_size_allocate
        (gtk_window_buttons_quartz_new none none none)
        { is_macos_surface := true, show_window_controls_result := true }
        60 44 (-1)).2.filter isSetHeightCall =
      [Event.setWindowControlsHeight 44]) := by
  have h := size_allocate_height_propagation
    (gtk_window_buttons_quartz_new none none none)
    { is_macos_surface := true, show_window_controls_result := true }
    60 44 (-1)
  exact ⟨h.1, h.2.1 (by decide) (by decide)⟩

/-- C3: on a macOS surface, unrealize emits exactly
`show_window_controls (surface, FALSE)` and then the base-class
teardown, in that order — independently of whether controls were ever
enabled. -/
theorem unrealize_hides_controls_before_base
    (surface : GdkSurface) (h : surface.is_macos_surface = true) :
    gtk_window_buttons_quartz_unrealize surface =
      [Event.showWindowControls false, Event.baseUnrealize] := by
  simp [gtk_window_buttons_quartz_unrealize, h]

/-- C3 witness: a concrete macOS surface (show-request rejected, so
controls were never enabled). -/
theorem unrealize_hides_controls_before_base_witness :
    gtk_window_buttons_quartz_unrealize
        { is_macos_surface := true, show_window_controls_result := false } =
      [Event.showWindowControls false, Event.baseUnrealize] :=
  unrealize_hides_controls_before_base
    { is_macos_surface := true, show_window_controls_result := false } (by decide)

/-- C4: on a non-macOS surface, realize only chains up: it issues no
surface call at all (in particular neither `show_window_controls` nor
`enable_window_controls`), and it is a total function — no error path. -/
theorem realize_incompatible_surface_inert
    (self : GtkWindowButtonsQuartz) (surface : GdkSurface)
    (h : surface.is_macos_surface = false) :
    gtk_window_buttons_quartz_realize self surface = [Event.baseRealize] ∧
    surfaceCalls (gtk_window_buttons_quartz_realize self surface) = [] := by
  constructor
  · simp [gtk_window_buttons_quartz_realize, h]
  · simp [gtk_window_buttons_quartz_realize, h, surfaceCalls, isSurfaceCall]

/-- C4 witness: a concrete non-macOS surface. -/
theorem realize_incompatible_surface_inert_witness :
    gtk_window_buttons_quartz_realize
        (gtk_window_buttons_quartz_new none none none)
        { is_macos_surface := false, show_window_controls_result := true } =
      [Event.baseRealize] ∧
    surfaceCalls (gtk_window_buttons_quartz_realize
        (gtk_window_buttons_quartz_new none none none)
        { is_macos_surface := false, show_window_controls_result := true }) = [] :=
  realize_incompatible_surface_inert
    (gtk_window_buttons_quartz_new none none none)
    { is_macos_surface := false, show_window_controls_result := true } (by decide)

/-- C5: construct, realize on a granted macOS surface, allocate height
30, allocate height 50, unrealize: the calls issued to the surface are
exactly `show(true)`, `enable(close, minimize, maximize)`, `setHeight
30`, `setHeight 50`, `show(false)`, in this order. -/
theorem lifecycle_sequence_trace
    (close minimize maximize : Bool) (w1 w2 b1 b2 : Int) :
    surfaceCalls
      (runOps (gtk_window_buttons_quartz_new (some close) (some minimize) (some maximize))
        [LifecycleOp.realize
            { is_macos_surface := true, show_window_controls_result := true },
         LifecycleOp.sizeAllocate
            { is_macos_surface := true, show_window_controls_result := true } w1 30 b1,
         LifecycleOp.sizeAllocate
            { is_macos_surface := true, show_window_controls_result := true } w2 50 b2,
         LifecycleOp.unrealize
            { is_macos_surface := true, show_window_controls_result := true }]).2 =
      [Event.showWindowControls true,
       Event.enableWindowControls close minimize maximize,
       Event.setWindowControlsHeight 30,
       Event.setWindowControlsHeight 50,
       Event.showWindowControls false] := by
  simp [runOps, stepOp, gtk_window_buttons_quartz_new,
    gtk_window_buttons_quartz_instance, gtk_window_buttons_quartz_set_property,
    gtk_window_buttons_quartz_realize, gtk_window_buttons_quartz_unrealize,
    gtk_window_buttons_quartz_size_allocate, update_native_window_buttons_height,
    surfaceCalls, isSurfaceCall, PROP_CLOSE, PROP_MINIMIZE, PROP_MAXIMIZE]

/-- C6: no lifecycle callback sequence ever changes the three flags:
after any run, each property getter returns exactly the value the flag
had before (in particular, the construction-time value). -/
theorem lifecycle_preserves_flags
    (self : GtkWindowButtonsQuartz) (ops : List LifecycleOp) :
    gtk_window_buttons_quartz_get_property (runOps self ops).1 PROP_CLOSE =
      some self.close ∧
    gtk_window_buttons_quartz_get_property (runOps self ops).1 PROP_MINIMIZE =
      some self.minimize ∧
    gtk_window_buttons_quartz_get_property (runOps self ops).1 PROP_MAXIMIZE =
      some self.maximize := by
  have key : ∀ (st : GtkWindowButtonsQuartz) (l : List LifecycleOp),
      (runOps st l).1.close = st.close ∧
      (runOps st l).1.minimize = st.minimize ∧
      (runOps st l).1.maximize = st.maximize := by
    intro st l
    induction l generalizing st with
    | nil => exact ⟨rfl, rfl, rfl⟩
    | cons op rest ih =>
        have hstep := stepOp_preserves_flags st op
        have hrest := ih (stepOp st op).1
        simp only [runOps]
        exact ⟨hrest.1.trans hstep.1,
               hrest.2.1.trans hstep.2.1,
               hrest.2.2.trans hstep.2.2⟩
  have h := key self ops
  refine ⟨?_, ?_, ?_⟩ <;>
    simp [gtk_window_buttons_quartz_get_property, PROP_CLOSE, PROP_MINIMIZE,
      PROP_MAXIMIZE, h.1, h.2.1, h.2.2]

/-- C7: measure ignores `for_size` and always yields
minimum = natural = 28 vertically and 60 horizontally. -/
theorem measure_fixed_size (for_size : Int) :
    gtk_window_buttons_quartz_measure GtkOrientation.vertical for_size = (28, 28) ∧
    gtk_window_buttons_quartz_measure GtkOrientation.horizontal for_size = (60, 60) :=
  ⟨rfl, rfl⟩

/-- C8: every construct option left unspecified takes its param-spec
default `TRUE`, and the getter reads it back as `true`. -/
theorem unspecified_options_default_true (c m x : Option Bool) :
    gtk_window_buttons_quartz_get_property
        (gtk_window_buttons_quartz_new none m x) PROP_CLOSE = some true ∧
    gtk_window_buttons_quartz_get_property
        (gtk_window_buttons_quartz_new c none x) PROP_MINIMIZE = some true ∧
    gtk_window_buttons_quartz_get_property
        (gtk_window_buttons_quartz_new c m none) PROP_MAXIMIZE = some true := by
  refine ⟨?_, ?_, ?_⟩ <;>
    simp [gtk_window_buttons_quartz_new, gtk_window_buttons_quartz_instance,
      gtk_window_buttons_quartz_set_property, gtk_window_buttons_quartz_get_property,
      prop_close_default, prop_minimize_default, prop_maximize_default,
      PROP_CLOSE, PROP_MINIMIZE, PROP_MAXIMIZE]

/-- C9: the property setter itself accepts writes at any time: for any
instance state and value, setting the close / minimize / maximize
property id overwrites the corresponding stored flag with that value. -/
theorem set_property_overwrites_flag
    (self : GtkWindowButtonsQuartz) (v : Bool) :
    (gtk_window_buttons_quartz_set_property self PROP_CLOSE v).close = v ∧
    (gtk_window_buttons_quartz_set_property self PROP_MINIMIZE v).minimize = v ∧
    (gtk_window_buttons_quartz_set_property self PROP_MAXIMIZE v).maximize = v := by
  refine ⟨?_, ?_, ?_⟩ <;>
    simp [gtk_window_buttons_quartz_set_property, PROP_CLOSE, PROP_MINIMIZE,
      PROP_MAXIMIZE]

/-- C10: on a non-macOS surface, size-allocate issues no surface call at
all — in particular no `set_window_controls_height`, even for a positive
height. -/
theorem size_allocate_incompatible_surface_no_calls
    (self : GtkWindowButtonsQuartz) (surface : GdkSurface)
    (width height baseline : Int) (h : surface.is_macos_surface = false) :
    surfaceCalls
        (gtk_window_buttons_quartz_size_allocate self surface width height baseline).2 =
      [] := by
  simp [gtk_window_buttons_quartz_size_allocate,
    update_native_window_buttons_height, h, surfaceCalls, isSurfaceCall]

/-- C10 witness: positive height 44 on a non-macOS surface. -/
theorem size_allocate_incompatible_surface_no_calls_witness :
    surfaceCalls
        (gtk_window_buttons_quartz_size_allocate
          (gtk_window_buttons_quartz_new none none none)
          { is_macos_surface := false, show_window_controls_result := true }
          60 44 (-1)).2 = [] :=
  size_allocate_incompatible_surface_no_calls
    (gtk_window_buttons_quartz_new none none none)
    { is_macos_surface := false, show_window_controls_result := true }
    60 44 (-1) (by decide)
